import Mathlib

/-!
Verification of the operation/descriptor builder of `gen-api-models.ts`
(io-utils).  The TypeScript source is shallowly embedded: JavaScript
objects become insertion-ordered association lists with JS assignment
semantics, JS `Set` becomes an insertion-ordered duplicate-free list,
fallible code (a thrown `TypeError`) becomes `Except String`.
-/

namespace GenApiModels

/-- Models `String.prototype.split` with a single-character separator,
working on the character list of the string. -/
def jsSplitChars (sep : Char) : List Char → List (List Char)
  | [] => [[]]
  | c :: cs =>
    let rest := jsSplitChars sep cs
    if c == sep then [] :: rest
    else
      match rest with
      | r :: rs => (c :: r) :: rs
      | [] => [[c]]

/-- Models `s.split("/")`. -/
def jsSplitSlash (s : String) : List String :=
  (jsSplitChars '/' s.data).map (fun cs => String.mk cs)

/-- Models `s.toLowerCase()` (ASCII range, which is all the source uses). -/
def jsToLower (s : String) : String :=
  String.mk (s.data.map Char.toLower)

/-- Source `capitalize`: first character upper-cased, rest untouched.
(On the empty string the JS source would throw; the generator never
calls it with one.) -/
def capitalize (s : String) : String :=
  match s.data with
  | [] => ""
  | c :: cs => String.mk (Char.toUpper c :: cs)

/-- Source `uncapitalize`: first character lower-cased, rest untouched. -/
def uncapitalize (s : String) : String :=
  match s.data with
  | [] => ""
  | c :: cs => String.mk (Char.toLower c :: cs)

/-- JS truthiness of a possibly-`undefined` string value
(`undefined` and `""` are falsy). -/
def jsTruthyS : Option String → Bool
  | none => false
  | some s => !(s == "")

/-- Template-literal interpolation of a possibly-`undefined` string
(`undefined` prints as "undefined"). -/
def optToJsString : Option String → String
  | none => "undefined"
  | some s => s

/-- Models `Set.prototype.add`: insertion order kept, duplicates dropped. -/
def addToSet (l : List String) (x : String) : List String :=
  if l.contains x then l else l ++ [x]

/-- Models `Array.prototype.join(sep)`. -/
def joinSep (sep : String) : List String → String
  | [] => ""
  | x :: xs => xs.foldl (fun acc y => acc ++ sep ++ y) x

/-- Models JS property read `m[k]` on an object with unique keys. -/
def lookupJS {α : Type} : List (String × α) → String → Option α
  | [], _ => none
  | kv :: rest, k => if kv.1 == k then some kv.2 else lookupJS rest k

/-- Models JS property assignment `m[k] = v`: an existing key is updated
in place, a new key is appended. -/
def insertJS {α : Type} : List (String × α) → String → α → List (String × α)
  | [], k, v => [(k, v)]
  | kv :: rest, k, v => if kv.1 == k then (k, v) :: rest else kv :: insertJS rest k v

/-- A JS string-valued object: insertion-ordered, keys unique. -/
abbrev ObjMap := List (String × String)

/-- Models the object spread `{ ...a, ...b }`: every entry of `b` is
assigned into a copy of `a`. -/
def spreadMerge (a b : ObjMap) : ObjMap :=
  b.foldl (fun acc kv => insertJS acc kv.1 kv.2) a

/-- Boolean key-uniqueness of an association list. -/
def keysUnique {α : Type} : List (String × α) → Bool
  | [] => true
  | kv :: rest => !(rest.any (fun kv2 => kv2.1 == kv.1)) && keysUnique rest

/-- Injective sum encoding of `Except`, used to decide equality. -/
def exceptToSum {ε α : Type} : Except ε α → ε ⊕ α
  | Except.error e => Sum.inl e
  | Except.ok a => Sum.inr a

instance {ε α : Type} [DecidableEq ε] [DecidableEq α] : DecidableEq (Except ε α) :=
  fun a b =>
    decidable_of_iff (exceptToSum a = exceptToSum b)
      (by cases a <;> cases b <;> simp [exceptToSum])

/-- Source `SUPPORTED_SPEC_METHODS`. -/
def SUPPORTED_SPEC_METHODS : List String := ["get", "post", "put", "delete"]

/-- The categories of the source's `typeFromRef` result
(`"definition" | "parameter" | "other"`). -/
inductive RefType where
  | definition : RefType
  | parameter : RefType
  | other : RefType
deriving DecidableEq, Repr

/-- Source `typeFromRef`: split the pointer on `/`; with exactly three
segments classify the middle one and return it with the last segment,
otherwise return `undefined`. -/
def typeFromRef (s : String) : Option (RefType × String) :=
  match jsSplitSlash s with
  | [_, p1, p2] =>
    some
      (if p1 == "definitions" then RefType.definition
       else if p1 == "parameters" then RefType.parameter
       else RefType.other, p2)
  | _ => none

/-- Source `specTypeToTs`. -/
def specTypeToTs (t : String) : String :=
  if t == "integer" then "number"
  else if t == "file" then "\x7b uri: string, name: string, type: string \x7d"
  else t

/-- Source `getDecoderForResponse`. -/
def getDecoderForResponse (status type : String) : String :=
  if type == "undefined" then
    "r.constantResponseDecoder<undefined, " ++ status ++ ">(" ++ status ++ ", undefined)"
  else if type == "Error" then
    "r.basicErrorResponseDecoder<" ++ status ++ ">(" ++ status ++ ")"
  else
    "r.ioResponseDecoder<" ++ status ++ ", (typeof " ++ type ++ ")[\"_A\"], (typeof " ++
      type ++ ")[\"_O\"]>(" ++ status ++ ", " ++ type ++ ")"

/-- An OpenAPI schema object, reduced to the only field the generator
reads (`$ref`). -/
structure SchemaObject where
  ref : Option String
deriving DecidableEq, Repr

/-- An OpenAPI parameter object, reduced to the fields the generator
reads.  `location` is the source's `in` field (carried by the document
but never read by the generator). -/
structure ParameterObject where
  name : Option String
  type : Option String
  required : Option Bool
  location : Option String
  ref : Option String
  schema : Option SchemaObject
deriving DecidableEq, Repr

/-- An OpenAPI security scheme of the apiKey shape the source casts to:
`in` (here `inLocation`) and `name`. -/
structure SecurityScheme where
  inLocation : String
  name : String
deriving DecidableEq, Repr

/-- An OpenAPI response object, reduced to the only part the generator
reads (`schema.$ref`). -/
structure ResponseObject where
  schema : Option SchemaObject
deriving DecidableEq, Repr

/-- An OpenAPI operation object.  A security requirement object is kept
as its ordered key list (the source only reads `Object.keys(_)[0]`);
the responses object is kept in insertion order. -/
structure OperationObject where
  operationId : Option String
  parameters : Option (List ParameterObject)
  security : Option (List (List String))
  responses : List (String × ResponseObject)
deriving DecidableEq, Repr

/-- Source `param.$ref || (param.schema ? param.schema.$ref : undefined)`
(JS `||` falls through on a falsy, i.e. empty or absent, `$ref`). -/
def refInParamOf (param : ParameterObject) : Option String :=
  if jsTruthyS param.ref then param.ref
  else match param.schema with
    | some s => s.ref
    | none => none

/-- Outcome of processing one operation parameter in the source's
`parameters.forEach` body: an inline entry, a skip with a `console.warn`
diagnostic, a resolved reference entry (possibly registering an import),
or a thrown `TypeError` (reading a property of `undefined` when a shared
parameter lookup fails). -/
inductive ParamStep where
  | inline (key value : String) : ParamStep
  | skip (diag : String) : ParamStep
  | resolvedRef (key value : String) (importName : Option String) : ParamStep
  | crash (msg : String) : ParamStep
deriving DecidableEq, Repr

/-- The message of the modelled `TypeError`. -/
def typeErrMsg : String := "TypeError: cannot read properties of undefined"

/-- The body of the source's `parameters.forEach` loop
(`renderOperation`, lines 119-177). -/
def processParam (operationId : String)
    (specParameters : Option (List (String × ParameterObject)))
    (param : ParameterObject) : ParamStep :=
  if jsTruthyS param.name && jsTruthyS param.type then
    let isRequired := param.required == some true
    ParamStep.inline (param.name.getD "" ++ (if isRequired then "" else "?"))
      (specTypeToTs (param.type.getD ""))
  else
    match refInParamOf param with
    | none =>
      ParamStep.skip ("Skipping param without ref in operation [" ++ operationId ++ "] [" ++
        optToJsString param.name ++ "]")
    | some refInParam =>
      match typeFromRef refInParam with
      | none => ParamStep.skip ("Cannot extract type from ref [" ++ refInParam ++ "]")
      | some parsedRef =>
        if parsedRef.1 == RefType.other then
          ParamStep.skip ("Unrecognized ref type [" ++ refInParam ++ "]")
        else
          let paramType : Except String (Option String) :=
            if parsedRef.1 == RefType.definition then Except.ok (some parsedRef.2)
            else match specParameters with
              | some sps =>
                match lookupJS sps parsedRef.2 with
                | some sp => Except.ok (sp.type.map specTypeToTs)
                | none => Except.error typeErrMsg
              | none => Except.ok none
          match paramType with
          | Except.error m => ParamStep.crash m
          | Except.ok none => ParamStep.skip ("Cannot resolve parameter " ++ parsedRef.2)
          | Except.ok (some pt) =>
            let isParamRequired :=
              if parsedRef.1 == RefType.definition then param.required == some true
              else match specParameters with
                | some sps =>
                  match lookupJS sps parsedRef.2 with
                  | some sp => sp.required == some true
                  | none => false
                | none => false
            let paramName := uncapitalize parsedRef.2 ++ (if isParamRequired then "" else "?")
            ParamStep.resolvedRef paramName pt
              (if parsedRef.1 == RefType.definition then some parsedRef.2 else none)

/-- Accumulator of the parameter loop: the `params` object, the emitted
diagnostics, and the `importedTypes` set. -/
structure ParamsAcc where
  params : ObjMap
  diags : List String
  imports : List String
deriving DecidableEq, Repr

/-- The source's `parameters.forEach` as a fold; a thrown `TypeError`
aborts it. -/
def collectParamsFrom (operationId : String)
    (specParameters : Option (List (String × ParameterObject)))
    (acc : ParamsAcc) : List ParameterObject → Except String ParamsAcc
  | [] => Except.ok acc
  | p :: rest =>
    match processParam operationId specParameters p with
    | ParamStep.inline k v =>
      collectParamsFrom operationId specParameters
        { acc with params := insertJS acc.params k v } rest
    | ParamStep.skip d =>
      collectParamsFrom operationId specParameters
        { acc with diags := acc.diags ++ [d] } rest
    | ParamStep.resolvedRef k v imp =>
      collectParamsFrom operationId specParameters
        { acc with
          params := insertJS acc.params k v
          imports := match imp with
            | some i => addToSet acc.imports i
            | none => acc.imports } rest
    | ParamStep.crash m => Except.error m

/-- Parameter collection for one operation, from the empty accumulator. -/
def collectParams (operationId : String)
    (specParameters : Option (List (String × ParameterObject)))
    (ps : List ParameterObject) : Except String ParamsAcc :=
  collectParamsFrom operationId specParameters ⟨[], [], []⟩ ps

/-- Source `getAuthHeaders`.  `securityKeys` is `none` when the caller
passes `undefined`.  The result pairs each surviving scheme's key with
its declared header field name. -/
def getAuthHeaders (securityDefinitions : Option (List (String × SecurityScheme)))
    (securityKeys : Option (List String)) : List (String × String) :=
  match securityKeys, securityDefinitions with
  | none, none => []
  | _, _ =>
    let securityDefs : List (String × Option SecurityScheme) :=
      match securityKeys, securityDefinitions with
      | some ks, some defs => ks.map (fun k => (k, lookupJS defs k))
      | _, some defs => defs.map (fun kv => (kv.1, some kv.2))
      | _, none => []
    ((securityDefs.filter (fun kv => kv.2.isSome)).filter
        (fun kv =>
          match kv.2 with
          | some s => s.inLocation == "header"
          | none => false)).map
      (fun kv =>
        (kv.1,
         match kv.2 with
         | some s => s.name
         | none => ""))

/-- The parsed reference of a response schema
(`response.schema ? response.schema.$ref : undefined`, then
`typeRef ? typeFromRef(typeRef) : undefined`). -/
def parsedRefOfResponse (response : ResponseObject) : Option (RefType × String) :=
  let typeRef : Option String :=
    match response.schema with
    | some s => s.ref
    | none => none
  if jsTruthyS typeRef then typeFromRef (typeRef.getD "") else none

/-- The resolved type of one declared response (`renderOperation`,
lines 217-221). -/
def responseTypeOf (responseStatus : String) (response : ResponseObject)
    (defaultSuccessType defaultErrorType : String) : String :=
  match parsedRefOfResponse response with
  | some parsedRef => parsedRef.2
  | none => if responseStatus == "200" then defaultSuccessType else defaultErrorType

/-- The name a response registers in `importedTypes`, if any
(`renderOperation`, lines 214-216). -/
def responseImportOf (response : ResponseObject) : Option String :=
  (parsedRefOfResponse response).map (fun parsedRef => parsedRef.2)

/-- The source's `Object.keys(operation.responses).map(...)` loop as a
fold: threads the `importedTypes` set and produces the
(status, resolved type) pairs in declaration order. -/
def processResponses (defaultSuccessType defaultErrorType : String)
    (acc : List (String × String) × List String) :
    List (String × ResponseObject) → List (String × String) × List String
  | [] => acc
  | (responseStatus, response) :: rest =>
    processResponses defaultSuccessType defaultErrorType
      (acc.1 ++ [(responseStatus, responseTypeOf responseStatus response
          defaultSuccessType defaultErrorType)],
       match responseImportOf response with
       | some n => addToSet acc.2 n
       | none => acc.2) rest

/-- The source's success-response predicate
(`_.e1.length === 3 && _.e1[0] === "2"`). -/
def isSuccessStatus (status : String) : Bool :=
  status.length == 3 &&
    (match status.data with
     | c :: _ => c == '2'
     | [] => false)

/-- The auth-parameter layer: `authParams[_.e1] = "string"` for every
auth header pair. -/
def authParamsOf (authHeadersAndParams : List (String × String)) : ObjMap :=
  authHeadersAndParams.foldl (fun m kv => insertJS m kv.1 "string") []

/-- The three-layer parameter merge
`{ ...extraParameters, ...authParams, ...params }`. -/
def mergeParamLayers (extraParameters authParams params : ObjMap) : ObjMap :=
  spreadMerge (spreadMerge extraParameters authParams) params

/-- Everything `renderOperation` computes, with the intermediate values
the source binds to local consts kept as fields. -/
structure OperationRender where
  params : ObjMap
  diags : List String
  authHeadersAndParams : List (String × String)
  authParams : ObjMap
  allParams : ObjMap
  paramsCode : String
  headers : List String
  headersCode : String
  responses : List (String × String)
  successType : Option (String × String)
  importedTypes : List String
  decoderCode : String
  code : String
deriving DecidableEq, Repr

/-- Source `renderOperation`.  The error case models the `TypeError`
thrown when a `#/parameters/...` reference has no entry in the shared
parameter map. -/
def renderOperation (method operationId : String) (operation : OperationObject)
    (specParameters : Option (List (String × ParameterObject)))
    (securityDefinitions : Option (List (String × SecurityScheme)))
    (extraHeaders : List String) (extraParameters : ObjMap)
    (defaultSuccessType defaultErrorType : String)
    (generateResponseDecoders : Bool) : Except String OperationRender :=
  let requestType := "r.I" ++ capitalize method ++ "ApiRequestType"
  match (match operation.parameters with
         | some ps => collectParams operationId specParameters ps
         | none => Except.ok ⟨[], [], []⟩) with
  | Except.error m => Except.error m
  | Except.ok pacc =>
    let authHeadersAndParams :=
      match operation.security with
      | some security =>
        getAuthHeaders securityDefinitions (some (security.filterMap List.head?))
      | none => []
    let authParams := authParamsOf authHeadersAndParams
    let allParams := mergeParamLayers extraParameters authParams pacc.params
    let paramsCode :=
      joinSep "," (allParams.map (fun kv => "readonly " ++ kv.1 ++ ": " ++ kv.2))
    let contentTypeHeaders :=
      if (method == "post" || method == "put") && !pacc.params.isEmpty then
        ["Content-Type"]
      else []
    let authHeaders := authHeadersAndParams.map (fun kv => kv.2)
    let headers := contentTypeHeaders ++ authHeaders ++ extraHeaders
    let headersCode :=
      if headers.length > 0 then joinSep "|" (headers.map (fun h => "\"" ++ h ++ "\""))
      else "never"
    let respAcc :=
      processResponses defaultSuccessType defaultErrorType ([], pacc.imports)
        operation.responses
    let responses := respAcc.1
    let importedTypes := respAcc.2
    let responsesType :=
      joinSep "|" (responses.map (fun r => "r.IResponseType<" ++ r.1 ++ ", " ++ r.2 ++ ">"))
    let successType := responses.find? (fun r => isSuccessStatus r.1)
    let responsesDecoderCode :=
      match generateResponseDecoders, successType with
      | true, some st =>
        "\n        // Decodes the success response with a custom success type\n        export function "
          ++ operationId ++ "Decoder<A, O>(type: t.Type<A, O>) \x7b return "
          ++ responses.foldl (fun acc r =>
               let d := getDecoderForResponse r.1 (if r.1 == st.1 then "type" else r.2)
               if acc == "" then d
               else "r.composeResponseDecoders(" ++ acc ++ ", " ++ d ++ ")") ""
          ++ "; \x7d\n\n        // Decodes the success response with the type defined in the specs\n        export const "
          ++ operationId ++ "DefaultDecoder = () => " ++ operationId ++ "Decoder("
          ++ (if st.2 == "undefined" then "t.undefined" else st.2) ++ ");"
      | _, _ => ""
    let code :=
      "\n    /****************************************************************\n     * "
        ++ operationId ++ "\n     */\n\n    // Request type definition\n    export type "
        ++ capitalize operationId ++ "T = " ++ requestType ++ "<\x7b" ++ paramsCode
        ++ "\x7d, " ++ headersCode ++ ", never, " ++ responsesType ++ ">;\n  "
        ++ responsesDecoderCode
    Except.ok
      { params := pacc.params
        diags := pacc.diags
        authHeadersAndParams := authHeadersAndParams
        authParams := authParams
        allParams := allParams
        paramsCode := paramsCode
        headers := headers
        headersCode := headersCode
        responses := responses
        successType := successType
        importedTypes := importedTypes
        decoderCode := responsesDecoderCode
        code := code }

/-- A value stored under one key of a path item: an operation object, or
the path-level shared `parameters` array. -/
inductive PathItemEntry where
  | op : OperationObject → PathItemEntry
  | pathParams : List ParameterObject → PathItemEntry
deriving DecidableEq, Repr

/-- A path item as a JS object: its keys in insertion order. -/
abbrev PathItem := List (String × PathItemEntry)

/-- JS field read `pathSpec.<field>` expecting an operation object. -/
def pathItemOp (pathSpec : PathItem) (field : String) : Option OperationObject :=
  match lookupJS pathSpec field with
  | some (PathItemEntry.op o) => some o
  | _ => none

/-- JS field read `pathSpec.parameters`. -/
def pathItemParameters (pathSpec : PathItem) : Option (List ParameterObject) :=
  match lookupJS pathSpec "parameters" with
  | some (PathItemEntry.pathParams l) => some l
  | _ => none

/-- The source's conditional chain resolving `pathSpec[method]`
(`generateApi`, lines 394-405); the `head` branch is unreachable because
`head` is not a supported method. -/
def lookupOperationChain (pathSpec : PathItem) (method : String) : Option OperationObject :=
  if method == "get" then pathItemOp pathSpec "get"
  else if method == "post" then pathItemOp pathSpec "post"
  else if method == "put" then pathItemOp pathSpec "put"
  else if method == "head" then pathItemOp pathSpec "head"
  else if method == "delete" then pathItemOp pathSpec "delete"
  else none

/-- The per-path `extraParameters` object: path-level shared parameters
with a truthy inline type, then the global auth parameters assigned on
top (`generateApi`, lines 366-385). -/
def pathExtraParameters (pathSpec : PathItem)
    (globalAuthHeaders : List (String × String)) : ObjMap :=
  let base :=
    match pathItemParameters pathSpec with
    | some ps =>
      ps.foldl (fun m param =>
        if jsTruthyS param.type then
          insertJS m
            (optToJsString param.name ++ (if param.required == some true then "" else "?"))
            (specTypeToTs (param.type.getD ""))
        else m) []
    | none => []
  globalAuthHeaders.foldl (fun m kv => insertJS m kv.1 "string") base

/-- The body of `Object.keys(pathSpec).map(operationKey => ...)`
(`generateApi`, lines 387-427): `none` descriptors are the skipped
entries, paired with the diagnostics the step emits. -/
def processOperationKey (specParameters : Option (List (String × ParameterObject)))
    (securityDefinitions : Option (List (String × SecurityScheme)))
    (globalAuthHeaders : List (String × String)) (extraParameters : ObjMap)
    (defaultSuccessType defaultErrorType : String) (generateResponseDecoders : Bool)
    (pathSpec : PathItem) (operationKey : String) :
    Except String (Option OperationRender × List String) :=
  let method := jsToLower operationKey
  if !(SUPPORTED_SPEC_METHODS.contains method) then Except.ok (none, [])
  else
    match lookupOperationChain pathSpec method with
    | none => Except.ok (none, ["Skipping unsupported method [" ++ method ++ "]"])
    | some operation =>
      match operation.operationId with
      | none =>
        Except.ok (none, ["Skipping method with missing operationId [" ++ method ++ "]"])
      | some operationId =>
        match renderOperation method operationId operation specParameters
            securityDefinitions (globalAuthHeaders.map (fun kv => kv.2)) extraParameters
            defaultSuccessType defaultErrorType generateResponseDecoders with
        | Except.error m => Except.error m
        | Except.ok r => Except.ok (some r, r.diags)

/-- Iteration over the keys of one path item, accumulating descriptors
and diagnostics. -/
def processPathKeysFrom (specParameters : Option (List (String × ParameterObject)))
    (securityDefinitions : Option (List (String × SecurityScheme)))
    (globalAuthHeaders : List (String × String)) (extraParameters : ObjMap)
    (defaultSuccessType defaultErrorType : String) (generateResponseDecoders : Bool)
    (pathSpec : PathItem) (acc : List (Option OperationRender) × List String) :
    List (String × PathItemEntry) →
    Except String (List (Option OperationRender) × List String)
  | [] => Except.ok acc
  | entry :: rest =>
    match processOperationKey specParameters securityDefinitions globalAuthHeaders
        extraParameters defaultSuccessType defaultErrorType generateResponseDecoders
        pathSpec entry.1 with
    | Except.error m => Except.error m
    | Except.ok (r, ds) =>
      processPathKeysFrom specParameters securityDefinitions globalAuthHeaders
        extraParameters defaultSuccessType defaultErrorType generateResponseDecoders
        pathSpec (acc.1 ++ [r], acc.2 ++ ds) rest

/-- Processing of one path: build `extraParameters`, then walk the path
item's keys. -/
def processPath (specParameters : Option (List (String × ParameterObject)))
    (securityDefinitions : Option (List (String × SecurityScheme)))
    (globalAuthHeaders : List (String × String))
    (defaultSuccessType defaultErrorType : String) (generateResponseDecoders : Bool)
    (pathSpec : PathItem) :
    Except String (List (Option OperationRender) × List String) :=
  processPathKeysFrom specParameters securityDefinitions globalAuthHeaders
    (pathExtraParameters pathSpec globalAuthHeaders) defaultSuccessType defaultErrorType
    generateResponseDecoders pathSpec ([], []) pathSpec

/-- The bundled document, reduced to what the walker reads.
`hasSwagger` models `specs.hasOwnProperty("swagger")`; definition bodies
go straight to the external template engine, so only their names are
kept. -/
structure ApiDocument where
  hasSwagger : Bool
  definitions : Option (List String)
  paths : List (String × PathItem)
  parameters : Option (List (String × ParameterObject))
  securityDefinitions : Option (List (String × SecurityScheme))
  security : Option (List (List String))
deriving DecidableEq, Repr

/-- The outcome of a whole generation run. -/
structure GenerateResult where
  definitionNames : List String
  operations : List (List (Option OperationRender))
  diagnostics : List String
deriving DecidableEq, Repr

/-- Iteration over `Object.keys(api.paths)`. -/
def processPathsFrom (specParameters : Option (List (String × ParameterObject)))
    (securityDefinitions : Option (List (String × SecurityScheme)))
    (globalAuthHeaders : List (String × String))
    (defaultSuccessType defaultErrorType : String) (generateResponseDecoders : Bool)
    (acc : List (List (Option OperationRender)) × List String) :
    List (String × PathItem) →
    Except String (List (List (Option OperationRender)) × List String)
  | [] => Except.ok acc
  | (_, pathSpec) :: rest =>
    match processPath specParameters securityDefinitions globalAuthHeaders
        defaultSuccessType defaultErrorType generateResponseDecoders pathSpec with
    | Except.error m => Except.error m
    | Except.ok (ops, ds) =>
      processPathsFrom specParameters securityDefinitions globalAuthHeaders
        defaultSuccessType defaultErrorType generateResponseDecoders
        (acc.1 ++ [ops], acc.2 ++ ds) rest

/-- The pure core of source `generateApi`: the contract-version check,
the early return when no definitions exist, and the request-type walk
(the surrounding file writes and template rendering are external). -/
def generateApiCore (api : ApiDocument) (generateRequestTypes : Bool)
    (defaultSuccessType defaultErrorType : String)
    (generateResponseDecoders : Bool) : Except String GenerateResult :=
  if !api.hasSwagger then Except.error "The specification is not of type swagger 2"
  else
    match api.definitions with
    | none => Except.ok ⟨[], [], ["No definitions found, skipping generation of model code."]⟩
    | some definitionNames =>
      if generateRequestTypes || generateResponseDecoders then
        let globalAuthHeaders :=
          match api.security with
          | some security =>
            getAuthHeaders api.securityDefinitions (some (security.filterMap List.head?))
          | none => []
        match processPathsFrom api.parameters api.securityDefinitions globalAuthHeaders
            defaultSuccessType defaultErrorType generateResponseDecoders ([], [])
            api.paths with
        | Except.error m => Except.error m
        | Except.ok (opss, diags) => Except.ok ⟨definitionNames, opss, diags⟩
      else Except.ok ⟨definitionNames, [], []⟩



/-- Left-to-right composition of a list of single-status decoder
expressions with the binary combinator, in list order: the first decoder
is the seed and every further one is wrapped with
`r.composeResponseDecoders(acc, d)`.  Written from the specification's
description of the Decoder Composer, to be compared with the guarded
fold the source uses. -/
def composeChain : List String → String
  | [] => ""
  | d :: rest =>
    rest.foldl (fun acc d2 => "r.composeResponseDecoders(" ++ acc ++ ", " ++ d2 ++ ")") d

/-- The model name of a response schema reference of category
Definition, and nothing otherwise.  Written from the claim's wording
("the response schema carries a Definition reference"), to be compared
with what the source actually registers. -/
def specDefinitionRefName (response : ResponseObject) : Option String :=
  match parsedRefOfResponse response with
  | some (RefType.definition, n) => some n
  | _ => none

/-- Whether an operation declares any body- or query-located parameter.
Written from the claim's wording ("has any body/query parameters"). -/
def hasBodyOrQueryParam (operation : OperationObject) : Bool :=
  match operation.parameters with
  | some ps => ps.any (fun p => p.location == some "body" || p.location == some "query")
  | none => false

/-- Counterexample input for C7: a `post` operation whose only parameter
is path-located (neither body nor query). -/
def cexC7operation : OperationObject :=
  ⟨some "updateThing",
   some [⟨some "id", some "string", some true, some "path", none, none⟩],
   none, [("200", ⟨none⟩)]⟩

/-- Counterexample input for C8: a path declaring a `get` and a `head`
operation, both with operation ids. -/
def cexC8pathSpec : PathItem :=
  [("get", PathItemEntry.op ⟨some "getOne", none, none, [("200", ⟨none⟩)]⟩),
   ("head", PathItemEntry.op ⟨some "headOne", none, none, [("200", ⟨none⟩)]⟩)]

theorem lookupJS_insertJS {α : Type} (m : List (String × α)) (k : String) (v : α)
    (k' : String) :
    lookupJS (insertJS m k v) k' = if k' = k then some v else lookupJS m k' := by
  induction m with
  | nil =>
    by_cases h : k' = k
    · simp [insertJS, lookupJS, h, beq_iff_eq]
    · have h' : ¬k = k' := fun hc => h hc.symm
      simp [insertJS, lookupJS, h, h', beq_iff_eq]
  | cons kv rest ih =>
    by_cases h1 : kv.1 = k
    · by_cases h2 : k' = k
      · simp [insertJS, lookupJS, beq_iff_eq, h1, h2]
      · have h2' : ¬k = k' := fun hc => h2 hc.symm
        simp [insertJS, lookupJS, beq_iff_eq, h1, h2, h2']
    · by_cases h2 : kv.1 = k'
      · have hk : ¬k' = k := fun hc => h1 (hc ▸ h2)
        simp [insertJS, lookupJS, beq_iff_eq, h1, h2, hk]
      · simp [insertJS, lookupJS, beq_iff_eq, h1, h2, ih]

theorem anyKey_insertJS {α : Type} (m : List (String × α)) (k : String) (v : α)
    (x : String) :
    (insertJS m k v).any (fun kv => kv.1 == x) =
      (m.any (fun kv => kv.1 == x) || (k == x)) := by
  induction m with
  | nil => simp [insertJS]
  | cons kv rest ih =>
    by_cases h1 : kv.1 = k
    · subst h1
      simp only [insertJS, beq_self_eq_true, if_true, List.any_cons]
      cases hb : (kv.1 == x) <;> simp [hb]
    · simp only [insertJS, beq_iff_eq, h1, if_false, List.any_cons, ih]
      cases hb : (kv.1 == x) <;> simp [Bool.or_assoc]

theorem keysUnique_insertJS {α : Type} (m : List (String × α)) (k : String) (v : α)
    (h : keysUnique m = true) : keysUnique (insertJS m k v) = true := by
  induction m with
  | nil => simp [insertJS, keysUnique]
  | cons kv rest ih =>
    simp only [keysUnique, Bool.and_eq_true, Bool.not_eq_true'] at h
    by_cases h1 : kv.1 = k
    · simp only [insertJS, beq_iff_eq, h1, if_true, keysUnique, Bool.and_eq_true,
        Bool.not_eq_true']
      exact ⟨h1 ▸ h.1, h.2⟩
    · simp only [insertJS, beq_iff_eq, h1, if_false, keysUnique, Bool.and_eq_true,
        Bool.not_eq_true', anyKey_insertJS, Bool.or_eq_false_iff]
      refine ⟨⟨h.1, ?_⟩, ih h.2⟩
      simp [beq_iff_eq]
      exact fun hc => h1 hc.symm

theorem lookupJS_eq_none {α : Type} (m : List (String × α)) (k : String)
    (h : m.any (fun kv => kv.1 == k) = false) : lookupJS m k = none := by
  induction m with
  | nil => simp [lookupJS]
  | cons kv rest ih =>
    simp only [List.any_cons, Bool.or_eq_false_iff] at h
    simp [lookupJS, h.1, ih h.2]

theorem lookupJS_spreadMerge (a b : ObjMap) (k : String)
    (hb : keysUnique b = true) :
    lookupJS (spreadMerge a b) k =
      match lookupJS b k with
      | some v => some v
      | none => lookupJS a k := by
  induction b generalizing a with
  | nil => simp [spreadMerge, lookupJS]
  | cons kv rest ih =>
    simp only [keysUnique, Bool.and_eq_true, Bool.not_eq_true'] at hb
    have hstep : spreadMerge a (kv :: rest) = spreadMerge (insertJS a kv.1 kv.2) rest := by
      simp [spreadMerge]
    rw [hstep, ih _ hb.2]
    by_cases hk : k = kv.1
    · subst hk
      have hrest : lookupJS rest kv.1 = none := by
        apply lookupJS_eq_none
        simpa using hb.1
      simp [hrest, lookupJS, lookupJS_insertJS]
    · have hne : ¬kv.1 = k := fun hc => hk hc.symm
      simp [lookupJS, lookupJS_insertJS, hk, beq_iff_eq, hne]

theorem keysUnique_spreadMerge (a b : ObjMap) (ha : keysUnique a = true) :
    keysUnique (spreadMerge a b) = true := by
  induction b generalizing a with
  | nil => simpa [spreadMerge] using ha
  | cons kv rest ih =>
    have hstep : spreadMerge a (kv :: rest) = spreadMerge (insertJS a kv.1 kv.2) rest := by
      simp [spreadMerge]
    rw [hstep]
    exact ih _ (keysUnique_insertJS _ _ _ ha)

theorem mem_insertJS {α : Type} (m : List (String × α)) (k : String) (v : α)
    (kv' : String × α) (h : kv' ∈ insertJS m k v) : kv' ∈ m ∨ kv' = (k, v) := by
  induction m with
  | nil =>
    simp only [insertJS, List.mem_singleton] at h
    exact Or.inr h
  | cons kv rest ih =>
    by_cases h1 : kv.1 = k
    · simp only [insertJS, beq_iff_eq, h1, if_true] at h
      rcases List.mem_cons.mp h with h2 | h2
      · exact Or.inr h2
      · exact Or.inl (List.mem_cons_of_mem _ h2)
    · simp only [insertJS, beq_iff_eq, h1, if_false] at h
      rcases List.mem_cons.mp h with h2 | h2
      · exact Or.inl (h2 ▸ List.mem_cons_self _ _)
      · rcases ih h2 with h3 | h3
        · exact Or.inl (List.mem_cons_of_mem _ h3)
        · exact Or.inr h3

theorem authParamsOf_eq_spreadMerge (hdrs : List (String × String)) :
    authParamsOf hdrs = spreadMerge [] (hdrs.map (fun kv => (kv.1, "string"))) := by
  simp [authParamsOf, spreadMerge, List.foldl_map]

theorem keysUnique_authParamsOf (hdrs : List (String × String)) :
    keysUnique (authParamsOf hdrs) = true := by
  rw [authParamsOf_eq_spreadMerge]
  exact keysUnique_spreadMerge _ _ rfl

theorem mem_foldl_insertJS (l : List (String × String)) (m : ObjMap)
    (kv : String × String) (h : kv ∈ l.foldl (fun acc p => insertJS acc p.1 "string") m) :
    kv ∈ m ∨ (kv.2 = "string" ∧ kv.1 ∈ l.map Prod.fst) := by
  induction l generalizing m with
  | nil => exact Or.inl h
  | cons p rest ih =>
    simp only [List.foldl_cons] at h
    rcases ih _ h with h2 | h2
    · rcases mem_insertJS _ _ _ _ h2 with h3 | h3
      · exact Or.inl h3
      · refine Or.inr ⟨by simp [h3], ?_⟩
        simp [h3]
    · exact Or.inr ⟨h2.1, by simp [h2.2]⟩

theorem mem_authParamsOf (hdrs : List (String × String)) (kv : String × String)
    (h : kv ∈ authParamsOf hdrs) : kv.2 = "string" ∧ kv.1 ∈ hdrs.map Prod.fst := by
  rcases mem_foldl_insertJS hdrs [] kv h with h2 | h2
  · simp at h2
  · exact h2

theorem collectParamsFrom_keysUnique (operationId : String)
    (specParameters : Option (List (String × ParameterObject)))
    (ps : List ParameterObject) (acc : ParamsAcc)
    (hu : keysUnique acc.params = true) :
    match collectParamsFrom operationId specParameters acc ps with
    | Except.ok r => keysUnique r.params = true
    | Except.error _ => True := by
  induction ps generalizing acc with
  | nil => simpa [collectParamsFrom] using hu
  | cons p rest ih =>
    simp only [collectParamsFrom]
    cases hp : processParam operationId specParameters p with
    | inline k v => exact ih _ (keysUnique_insertJS _ _ _ hu)
    | skip d => exact ih _ hu
    | resolvedRef k v imp => exact ih _ (keysUnique_insertJS _ _ _ hu)
    | crash m => trivial

theorem eq_empty_of_data_nil (s : String) (h : s.data = []) : s = "" := by
  cases s with
  | mk data =>
    cases h
    rfl

theorem append_ne_empty_left (s t : String) (h : s ≠ "") : s ++ t ≠ "" := by
  intro hc
  apply h
  have hd := congrArg String.data hc
  rw [String.data_append] at hd
  exact eq_empty_of_data_nil s (List.append_eq_nil.mp hd).1

theorem getDecoderForResponse_ne_empty (status type : String) :
    getDecoderForResponse status type ≠ "" := by
  unfold getDecoderForResponse
  split
  · repeat' apply append_ne_empty_left
    decide
  · split
    · repeat' apply append_ne_empty_left
      decide
    · repeat' apply append_ne_empty_left
      decide

theorem decoderFold_guard_eq (ds : List String) (acc : String) (h : acc ≠ "") :
    ds.foldl (fun a d => if a == "" then d
      else "r.composeResponseDecoders(" ++ a ++ ", " ++ d ++ ")") acc =
    ds.foldl (fun a d => "r.composeResponseDecoders(" ++ a ++ ", " ++ d ++ ")") acc := by
  induction ds generalizing acc with
  | nil => rfl
  | cons d rest ih =>
    have hne : (acc == "") = false := by
      simpa [beq_iff_eq] using h
    simp only [List.foldl_cons, hne, if_false]
    refine ih _ ?_
    repeat' apply append_ne_empty_left
    decide

theorem decoderFold_eq_composeChain {β : Type} (l : List β) (g : β → String)
    (hg : ∀ x, g x ≠ "") :
    l.foldl (fun a x =>
      if a == "" then g x
      else "r.composeResponseDecoders(" ++ a ++ ", " ++ g x ++ ")") "" =
    composeChain (l.map g) := by
  cases l with
  | nil => rfl
  | cons x rest =>
    have h0 : (("" : String) == "") = true := by decide
    simp only [List.foldl_cons, List.map_cons, composeChain, h0, if_true]
    rw [← List.foldl_map g
      (fun a d => if a == "" then d
        else "r.composeResponseDecoders(" ++ a ++ ", " ++ d ++ ")") rest (g x)]
    rw [decoderFold_guard_eq _ _ (hg x)]

theorem filterFilterMap_header
    (l : List (String × Option SecurityScheme)) :
    ((l.filter (fun kv => kv.2.isSome)).filter
        (fun kv =>
          match kv.2 with
          | some s => s.inLocation == "header"
          | none => false)).map
      (fun kv =>
        (kv.1,
         match kv.2 with
         | some s => s.name
         | none => "")) =
    l.filterMap (fun kv =>
      match kv.2 with
      | some s => if s.inLocation == "header" then some (kv.1, s.name) else none
      | none => none) := by
  induction l with
  | nil => rfl
  | cons kv rest ih =>
    cases h2 : kv.2 with
    | none => simpa [List.filter_cons, List.filterMap_cons, h2] using ih
    | some s =>
      by_cases hh : s.inLocation = "header"
      · simpa [List.filter_cons, List.filterMap_cons, h2, hh] using ih
      · simpa [List.filter_cons, List.filterMap_cons, h2, hh] using ih

theorem processParam_error (operationId : String)
    (specParameters : Option (List (String × ParameterObject)))
    (param : ParameterObject) (m : String)
    (h : processParam operationId specParameters param = ParamStep.crash m) :
    m = typeErrMsg := by
  unfold processParam at h
  by_cases h1 : (jsTruthyS param.name && jsTruthyS param.type) = true
  · simp [h1] at h
  · have h1' : (jsTruthyS param.name && jsTruthyS param.type) = false := by simpa using h1
    simp only [h1', Bool.false_eq_true, if_false] at h
    cases hr : refInParamOf param with
    | none => simp [hr] at h
    | some r =>
      simp only [hr] at h
      cases ht : typeFromRef r with
      | none => simp [ht] at h
      | some parsedRef =>
        simp only [ht] at h
        by_cases ho : parsedRef.1 = RefType.other
        · simp [ho] at h
        · simp only [beq_iff_eq, ho, if_false] at h
          by_cases hd : parsedRef.1 = RefType.definition
          · simp [beq_iff_eq, hd] at h
          · simp only [beq_iff_eq, hd, if_false] at h
            cases hsps : specParameters with
            | none => simp [hsps] at h
            | some sps =>
              simp only [hsps] at h
              cases hlk : lookupJS sps parsedRef.2 with
              | none =>
                simp only [hlk] at h
                simp at h
                exact h.symm
              | some sp =>
                simp only [hlk] at h
                cases hsp : sp.type with
                | none => simp [hsp] at h
                | some t => simp [hsp] at h

theorem collectParamsFrom_error (operationId : String)
    (specParameters : Option (List (String × ParameterObject)))
    (ps : List ParameterObject) (acc : ParamsAcc) (m : String)
    (h : collectParamsFrom operationId specParameters acc ps = Except.error m) :
    m = typeErrMsg := by
  induction ps generalizing acc with
  | nil => simp [collectParamsFrom] at h
  | cons p rest ih =>
    simp only [collectParamsFrom] at h
    cases hp : processParam operationId specParameters p with
    | inline k v =>
      rw [hp] at h
      exact ih _ h
    | skip d =>
      rw [hp] at h
      exact ih _ h
    | resolvedRef k v imp =>
      rw [hp] at h
      exact ih _ h
    | crash m2 =>
      rw [hp] at h
      cases h
      exact processParam_error _ _ _ _ hp

theorem renderOperation_error (method operationId : String)
    (operation : OperationObject)
    (specParameters : Option (List (String × ParameterObject)))
    (securityDefinitions : Option (List (String × SecurityScheme)))
    (extraHeaders : List String) (extraParameters : ObjMap)
    (defaultSuccessType defaultErrorType : String)
    (generateResponseDecoders : Bool) (m : String)
    (h : renderOperation method operationId operation specParameters
      securityDefinitions extraHeaders extraParameters defaultSuccessType
      defaultErrorType generateResponseDecoders = Except.error m) :
    m = typeErrMsg := by
  unfold renderOperation at h
  cases hps : operation.parameters with
  | none => simp [hps] at h
  | some ps =>
    rw [hps] at h
    cases hc : collectParams operationId specParameters ps with
    | error m2 =>
      simp only [hc] at h
      cases h
      exact collectParamsFrom_error _ _ _ _ _ hc
    | ok pacc =>
      simp only [hc] at h
      simp at h

theorem processOperationKey_error
    (specParameters : Option (List (String × ParameterObject)))
    (securityDefinitions : Option (List (String × SecurityScheme)))
    (globalAuthHeaders : List (String × String)) (extraParameters : ObjMap)
    (defaultSuccessType defaultErrorType : String) (generateResponseDecoders : Bool)
    (pathSpec : PathItem) (operationKey : String) (m : String)
    (h : processOperationKey specParameters securityDefinitions globalAuthHeaders
      extraParameters defaultSuccessType defaultErrorType generateResponseDecoders
      pathSpec operationKey = Except.error m) :
    m = typeErrMsg := by
  unfold processOperationKey at h
  by_cases hm : jsToLower operationKey ∈ SUPPORTED_SPEC_METHODS
  · have hcontains : SUPPORTED_SPEC_METHODS.contains (jsToLower operationKey) = true := by
      simpa using hm
    simp only [hcontains, Bool.not_true, Bool.false_eq_true, if_false] at h
    cases hl : lookupOperationChain pathSpec (jsToLower operationKey) with
    | none => simp [hl] at h
    | some operation =>
      simp only [hl] at h
      cases hid : operation.operationId with
      | none => simp [hid] at h
      | some operationId =>
        simp only [hid] at h
        cases hr : renderOperation (jsToLower operationKey) operationId operation
            specParameters securityDefinitions (globalAuthHeaders.map (fun kv => kv.2))
            extraParameters defaultSuccessType defaultErrorType
            generateResponseDecoders with
        | error m2 =>
          simp only [hr] at h
          cases h
          exact renderOperation_error _ _ _ _ _ _ _ _ _ _ _ hr
        | ok r => simp [hr] at h
  · have hcontains : SUPPORTED_SPEC_METHODS.contains (jsToLower operationKey) = false := by
      simpa using hm
    simp [hcontains, hm] at h

theorem processPathKeysFrom_error
    (specParameters : Option (List (String × ParameterObject)))
    (securityDefinitions : Option (List (String × SecurityScheme)))
    (globalAuthHeaders : List (String × String)) (extraParameters : ObjMap)
    (defaultSuccessType defaultErrorType : String) (generateResponseDecoders : Bool)
    (pathSpec : PathItem) (entries : List (String × PathItemEntry))
    (acc : List (Option OperationRender) × List String) (m : String)
    (h : processPathKeysFrom specParameters securityDefinitions globalAuthHeaders
      extraParameters defaultSuccessType defaultErrorType generateResponseDecoders
      pathSpec acc entries = Except.error m) :
    m = typeErrMsg := by
  induction entries generalizing acc with
  | nil => simp [processPathKeysFrom] at h
  | cons entry rest ih =>
    simp only [processPathKeysFrom] at h
    cases hk : processOperationKey specParameters securityDefinitions globalAuthHeaders
        extraParameters defaultSuccessType defaultErrorType generateResponseDecoders
        pathSpec entry.1 with
    | error m2 =>
      rw [hk] at h
      cases h
      exact processOperationKey_error _ _ _ _ _ _ _ _ _ _ hk
    | ok pr =>
      rw [hk] at h
      exact ih _ h

theorem processPathsFrom_error
    (specParameters : Option (List (String × ParameterObject)))
    (securityDefinitions : Option (List (String × SecurityScheme)))
    (globalAuthHeaders : List (String × String))
    (defaultSuccessType defaultErrorType : String) (generateResponseDecoders : Bool)
    (paths : List (String × PathItem))
    (acc : List (List (Option OperationRender)) × List String) (m : String)
    (h : processPathsFrom specParameters securityDefinitions globalAuthHeaders
      defaultSuccessType defaultErrorType generateResponseDecoders acc paths =
      Except.error m) :
    m = typeErrMsg := by
  induction paths generalizing acc with
  | nil => simp [processPathsFrom] at h
  | cons entry rest ih =>
    simp only [processPathsFrom] at h
    cases hp : processPath specParameters securityDefinitions globalAuthHeaders
        defaultSuccessType defaultErrorType generateResponseDecoders entry.2 with
    | error m2 =>
      rw [hp] at h
      cases h
      exact processPathKeysFrom_error _ _ _ _ _ _ _ _ _ _ _ hp
    | ok pr =>
      rw [hp] at h
      exact ih _ h

/-- C1: for every operation the merged parameter set is built from path-level
extra parameters, then auth-derived parameters (each valued "string", keyed by
the scheme key itself, hence required), then operation-specific parameters; a
later layer's entry with the same name overwrites an earlier one's, and each
name occurs at most once in the merged set (the operation layer produced by
parameter collection also has unique keys). -/
theorem c1_parameter_merge_precedence
    (extraParameters ps : ObjMap) (authHeadersAndParams : List (String × String))
    (k : String)
    (hps : keysUnique ps = true) (hex : keysUnique extraParameters = true) :
    lookupJS (mergeParamLayers extraParameters (authParamsOf authHeadersAndParams) ps) k =
      (match lookupJS ps k with
       | some v => some v
       | none =>
         match lookupJS (authParamsOf authHeadersAndParams) k with
         | some v => some v
         | none => lookupJS extraParameters k)
    ∧ keysUnique
        (mergeParamLayers extraParameters (authParamsOf authHeadersAndParams) ps) = true
    ∧ (∀ kv, kv ∈ authParamsOf authHeadersAndParams →
        kv.2 = "string" ∧ kv.1 ∈ authHeadersAndParams.map Prod.fst)
    ∧ (∀ operationId sps l,
        match collectParams operationId sps l with
        | Except.ok r => keysUnique r.params = true
        | Except.error _ => True) := by
  refine ⟨?_, ?_, ?_, ?_⟩
  · rw [mergeParamLayers, lookupJS_spreadMerge _ _ _ hps]
    cases lookupJS ps k with
    | none => exact lookupJS_spreadMerge _ _ _ (keysUnique_authParamsOf _)
    | some v => rfl
  · exact keysUnique_spreadMerge _ _ (keysUnique_spreadMerge _ _ hex)
  · intro kv hkv
    exact mem_authParamsOf _ _ hkv
  · intro operationId sps l
    simpa [collectParams] using
      collectParamsFrom_keysUnique operationId sps l ⟨[], [], []⟩ rfl

/-- Witness for C1: the auth layer survives under the path layer and the
merged set has unique keys, at a concrete input. -/
theorem c1_witness :
    lookupJS (mergeParamLayers [("lang?", "string")]
      (authParamsOf [("tokenAuth", "Authorization")])
      [("body", "GreetingRequest")]) "tokenAuth" = some "string"
    ∧ keysUnique (mergeParamLayers [("lang?", "string")]
        (authParamsOf [("tokenAuth", "Authorization")])
        [("body", "GreetingRequest")]) = true := by
  have h := c1_parameter_merge_precedence [("lang?", "string")]
    [("body", "GreetingRequest")] [("tokenAuth", "Authorization")] "tokenAuth"
    (by decide) (by decide)
  refine ⟨?_, h.2.1⟩
  rw [h.1]
  decide

/-- C2 counterexample: a response schema reference of category Parameter
(not Definition) still resolves to the pointed-to name and still registers
it in the import set, while the claim prescribes the configured default
and no registration for it. -/
theorem c2_counterexample :
    specDefinitionRefName ⟨some ⟨some "#/parameters/Foo"⟩⟩ = none
    ∧ responseTypeOf "404" ⟨some ⟨some "#/parameters/Foo"⟩⟩ "SuccessType" "ErrorType" = "Foo"
    ∧ (("Foo" == "ErrorType") = false)
    ∧ responseImportOf ⟨some ⟨some "#/parameters/Foo"⟩⟩ = some "Foo" := by decide

/-- C2 amended: a response whose schema reference parses (exactly three
segments, any category) resolves to the reference's last segment and
registers that name; only a response without a parseable reference falls
back to the success default for status "200" and the error default
otherwise, registering nothing; the response walk applies this pointwise
in declaration order. -/
theorem c2_amended_response_mapping :
    (∀ (status : String) (resp : ResponseObject) (dST dET : String),
      match parsedRefOfResponse resp with
      | some pr =>
        responseTypeOf status resp dST dET = pr.2 ∧ responseImportOf resp = some pr.2
      | none =>
        responseTypeOf status resp dST dET = (if status == "200" then dST else dET) ∧
          responseImportOf resp = none)
    ∧ (∀ (dST dET : String) (acc : List (String × String) × List String)
        (rs : List (String × ResponseObject)),
        (processResponses dST dET acc rs).1 =
          acc.1 ++ rs.map (fun sr => (sr.1, responseTypeOf sr.1 sr.2 dST dET))
        ∧ (processResponses dST dET acc rs).2 =
          rs.foldl (fun s sr =>
            match responseImportOf sr.2 with
            | some n => addToSet s n
            | none => s) acc.2) := by
  constructor
  · intro status resp dST dET
    cases hp : parsedRefOfResponse resp with
    | some pr => exact ⟨by simp [responseTypeOf, hp], by simp [responseImportOf, hp]⟩
    | none => exact ⟨by simp [responseTypeOf, hp], by simp [responseImportOf, hp]⟩
  · intro dST dET acc rs
    induction rs generalizing acc with
    | nil => simp [processResponses]
    | cons sr rest ih =>
      obtain ⟨st, resp⟩ := sr
      simp only [processResponses]
      obtain ⟨ih1, ih2⟩ := ih (acc.1 ++ [(st, responseTypeOf st resp dST dET)],
        match responseImportOf resp with
        | some n => addToSet acc.2 n
        | none => acc.2)
      constructor
      · rw [ih1]
        simp
      · rw [ih2]
        simp

/-- C3 counterexample: "201" is a 3-digit status beginning with "2", yet a
"201" response without a schema reference resolves to the configured
error default, not the success default. -/
theorem c3_counterexample :
    isSuccessStatus "201" = true
    ∧ parsedRefOfResponse ⟨none⟩ = none
    ∧ responseTypeOf "201" ⟨none⟩ "SuccessType" "ErrorType" = "ErrorType"
    ∧ (("ErrorType" == "SuccessType") = false) := by decide

/-- C3 amended: a response without a resolvable schema reference gets the
configured success default exactly when its status string is "200"; every
other status (including other 2xx codes) gets the configured error
default. -/
theorem c3_amended_success_default_only_200 :
    ∀ (status : String) (resp : ResponseObject) (dST dET : String),
      match parsedRefOfResponse resp with
      | some _ => True
      | none => responseTypeOf status resp dST dET = (if status == "200" then dST else dET) := by
  intro status resp dST dET
  cases hp : parsedRefOfResponse resp with
  | some pr => trivial
  | none => simp [responseTypeOf, hp]

theorem decoderCode_spec (responses : List (String × String)) (st : String × String) :
    responses.foldl (fun acc r =>
      let d := getDecoderForResponse r.1 (if r.1 == st.1 then "type" else r.2)
      if acc == "" then d
      else "r.composeResponseDecoders(" ++ acc ++ ", " ++ d ++ ")") "" =
    composeChain (responses.map (fun p =>
      getDecoderForResponse p.1 (if p.1 == st.1 then "type" else p.2))) := by
  have h := decoderFold_eq_composeChain responses
    (fun p => getDecoderForResponse p.1 (if p.1 == st.1 then "type" else p.2))
    (fun x => getDecoderForResponse_ne_empty _ _)
  simpa using h

/-- C4: when decoder generation is requested and a success response (first
declared 3-digit "2xx" status) exists, the decoder code is the left-to-right
fold of per-status decoders in declaration order with the binary compose
combinator, where exactly the entry whose status equals the success status is
parameterized by the generic "type" while every other entry keeps its
resolved type, followed by a default decoder applying the generic factory to
the contract-declared success type; otherwise no decoder code is produced. -/
theorem c4_decoder_composition :
    ∀ (method operationId : String) (operation : OperationObject)
      (sps : Option (List (String × ParameterObject)))
      (sds : Option (List (String × SecurityScheme)))
      (extraHeaders : List String) (extraParameters : ObjMap)
      (dST dET : String) (g : Bool),
      match renderOperation method operationId operation sps sds extraHeaders
          extraParameters dST dET g with
      | Except.error _ => True
      | Except.ok r =>
        r.successType = r.responses.find? (fun p => isSuccessStatus p.1)
        ∧ r.decoderCode =
          (match g, r.responses.find? (fun p => isSuccessStatus p.1) with
           | true, some st =>
             "\n        // Decodes the success response with a custom success type\n        export function "
               ++ operationId ++ "Decoder<A, O>(type: t.Type<A, O>) \x7b return "
               ++ composeChain (r.responses.map (fun p =>
                    getDecoderForResponse p.1 (if p.1 == st.1 then "type" else p.2)))
               ++ "; \x7d\n\n        // Decodes the success response with the type defined in the specs\n        export const "
               ++ operationId ++ "DefaultDecoder = () => " ++ operationId ++ "Decoder("
               ++ (if st.2 == "undefined" then "t.undefined" else st.2) ++ ");"
           | _, _ => "") := by
  intro method operationId operation sps sds extraHeaders extraParameters dST dET g
  unfold renderOperation
  cases hps : operation.parameters with
  | none =>
    simp only [hps]
    refine ⟨trivial, ?_⟩
    cases g with
    | false => rfl
    | true =>
      cases hfind : (processResponses dST dET ([], ([] : List String))
          operation.responses).1.find? (fun p => isSuccessStatus p.1) with
      | none => simp [hfind]
      | some st =>
        simp only [hfind]
        rw [decoderCode_spec]
  | some ps =>
    simp only [hps]
    cases hc : collectParams operationId sps ps with
    | error m =>
      simp only [hc]
    | ok pacc =>
      simp only [hc]
      refine ⟨trivial, ?_⟩
      cases g with
      | false => rfl
      | true =>
        cases hfind : (processResponses dST dET ([], pacc.imports)
            operation.responses).1.find? (fun p => isSuccessStatus p.1) with
        | none => simp [hfind]
        | some st =>
          simp only [hfind]
          rw [decoderCode_spec]

/-- C5: auth-header resolution yields one (scheme key, declared header field
name) pair per surviving scheme: requirement names, when given, are resolved
against the scheme map in requirement order with unresolved names filtered
out; with no requirement names but existing scheme definitions all defined
schemes are iterated; schemes whose location is not "header" are dropped; and
without scheme definitions nothing is produced. -/
theorem c5_auth_header_resolution :
    ∀ (sds : Option (List (String × SecurityScheme))) (keys : Option (List String)),
      match sds, keys with
      | none, _ => getAuthHeaders sds keys = []
      | some defs, some ks =>
        getAuthHeaders sds keys =
          ks.filterMap (fun k =>
            match lookupJS defs k with
            | some s => if s.inLocation == "header" then some (k, s.name) else none
            | none => none)
      | some defs, none =>
        getAuthHeaders sds keys =
          defs.filterMap (fun kv =>
            if kv.2.inLocation == "header" then some (kv.1, kv.2.name) else none) := by
  intro sds keys
  match sds, keys with
  | none, none => rfl
  | none, some ks =>
    simp [getAuthHeaders]
  | some defs, some ks =>
    dsimp only [getAuthHeaders]
    rw [filterFilterMap_header]
    rw [List.filterMap_map]
    rfl
  | some defs, none =>
    dsimp only [getAuthHeaders]
    rw [filterFilterMap_header]
    rw [List.filterMap_map]
    rfl

/-- C6: a pointer with exactly three segments classifies its middle segment
("definitions" to Definition, "parameters" to Parameter, anything else to
Other) paired with the last segment; any other segment count yields an
unresolvable (none) result; a parameter whose reference is unresolvable is
skipped with a diagnostic; and a skipped parameter leaves the parameter map
and import set unchanged while processing of the remaining parameters
continues. -/
theorem c6_unresolvable_ref_skip :
    (∀ s : String,
      match jsSplitSlash s with
      | [_, p1, p2] =>
        typeFromRef s =
          some (if p1 == "definitions" then RefType.definition
                else if p1 == "parameters" then RefType.parameter
                else RefType.other, p2)
      | _ => typeFromRef s = none)
    ∧ (∀ (operationId : String) (sps : Option (List (String × ParameterObject)))
        (param : ParameterObject),
        match jsTruthyS param.name && jsTruthyS param.type, refInParamOf param with
        | false, some r =>
          match typeFromRef r with
          | none =>
            processParam operationId sps param =
              ParamStep.skip ("Cannot extract type from ref [" ++ r ++ "]")
          | some _ => True
        | _, _ => True)
    ∧ (∀ (operationId : String) (sps : Option (List (String × ParameterObject)))
        (acc : ParamsAcc) (param : ParameterObject) (rest : List ParameterObject),
        match processParam operationId sps param with
        | ParamStep.skip d =>
          collectParamsFrom operationId sps acc (param :: rest) =
            collectParamsFrom operationId sps ⟨acc.params, acc.diags ++ [d], acc.imports⟩ rest
        | _ => True) := by
  refine ⟨?_, ?_, ?_⟩
  · intro s
    unfold typeFromRef
    cases h : jsSplitSlash s with
    | nil => rfl
    | cons a t1 =>
      cases t1 with
      | nil => rfl
      | cons b t2 =>
        cases t2 with
        | nil => rfl
        | cons c t3 =>
          cases t3 with
          | nil => rfl
          | cons d t4 => rfl
  · intro operationId sps param
    cases ht : jsTruthyS param.name && jsTruthyS param.type with
    | true => trivial
    | false =>
      cases hr : refInParamOf param with
      | none => trivial
      | some r =>
        cases htf : typeFromRef r with
        | some pr => simp [htf]
        | none =>
          unfold processParam
          simp [ht, hr, htf]
  · intro operationId sps acc param rest
    cases hp : processParam operationId sps param with
    | skip d =>
      simp only [collectParamsFrom, hp]
    | inline k v => trivial
    | resolvedRef k v imp => trivial
    | crash m => trivial

/-- C7 counterexample: a `post` operation whose only parameter is
path-located (no body/query parameter at all) still gets a "Content-Type"
header entry, while the claim prescribes none in that case. -/
theorem c7_counterexample :
    hasBodyOrQueryParam cexC7operation = false
    ∧ (renderOperation "post" "updateThing" cexC7operation none none [] []
        "undefined" "Error" false).map (fun r => r.headers) =
      Except.ok ["Content-Type"] := by decide

/-- C7 amended: the "Content-Type" entry is prepended exactly when the
method is post or put and the operation-specific parameter map is nonempty,
regardless of the parameters' locations; it precedes the auth headers,
which precede the path-level extra headers; an empty header set renders as
"never". -/
theorem c7_amended_content_type :
    ∀ (method operationId : String) (operation : OperationObject)
      (sps : Option (List (String × ParameterObject)))
      (sds : Option (List (String × SecurityScheme)))
      (extraHeaders : List String) (extraParameters : ObjMap)
      (dST dET : String) (g : Bool),
      match renderOperation method operationId operation sps sds extraHeaders
          extraParameters dST dET g with
      | Except.error _ => True
      | Except.ok r =>
        r.headers =
          (if (method == "post" || method == "put") && !r.params.isEmpty then
            ["Content-Type"]
          else []) ++ r.authHeadersAndParams.map (fun kv => kv.2) ++ extraHeaders
        ∧ r.headersCode =
          (if r.headers.length > 0 then
            joinSep "|" (r.headers.map (fun h => "\"" ++ h ++ "\""))
          else "never") := by
  intro method operationId operation sps sds extraHeaders extraParameters dST dET g
  unfold renderOperation
  cases hps : operation.parameters with
  | none =>
    simp only [hps]
    exact ⟨trivial, trivial⟩
  | some ps =>
    simp only [hps]
    cases hc : collectParams operationId sps ps with
    | error m => simp only [hc]
    | ok pacc =>
      simp only [hc]
      exact ⟨trivial, trivial⟩

/-- C8 counterexample: on a path declaring `get` and `head`, the `head`
operation produces no descriptor but is skipped silently — the diagnostics
list stays empty, while the claim prescribes a diagnostic. -/
theorem c8_counterexample :
    (processPath none none [] "undefined" "Error" false cexC8pathSpec).map
      (fun pr => (pr.1.map Option.isSome, pr.2)) = Except.ok ([true, false], []) := by
  decide

/-- C8 amended: an operation key whose lower-cased method is outside the
supported set is skipped silently (no descriptor, no diagnostic); a
supported key whose field lookup fails, or whose operation lacks an
operation id, is skipped with a diagnostic; a supported operation with an
id is rendered; and the path walk still yields one slot per declared key. -/
theorem c8_amended_skip_behavior :
    (∀ (sps : Option (List (String × ParameterObject)))
       (sds : Option (List (String × SecurityScheme)))
       (gah : List (String × String)) (ex : ObjMap) (dST dET : String) (g : Bool)
       (pathSpec : PathItem) (operationKey : String),
      match SUPPORTED_SPEC_METHODS.contains (jsToLower operationKey),
          lookupOperationChain pathSpec (jsToLower operationKey) with
      | false, _ =>
        processOperationKey sps sds gah ex dST dET g pathSpec operationKey =
          Except.ok (none, [])
      | true, none =>
        processOperationKey sps sds gah ex dST dET g pathSpec operationKey =
          Except.ok (none, ["Skipping unsupported method [" ++ jsToLower operationKey ++ "]"])
      | true, some operation =>
        match operation.operationId with
        | none =>
          processOperationKey sps sds gah ex dST dET g pathSpec operationKey =
            Except.ok (none,
              ["Skipping method with missing operationId [" ++ jsToLower operationKey ++ "]"])
        | some operationId =>
          processOperationKey sps sds gah ex dST dET g pathSpec operationKey =
            (renderOperation (jsToLower operationKey) operationId operation sps sds
              (gah.map (fun kv => kv.2)) ex dST dET g).map (fun r => (some r, r.diags)))
    ∧ (∀ (sps : Option (List (String × ParameterObject)))
        (sds : Option (List (String × SecurityScheme)))
        (gah : List (String × String)) (ex : ObjMap) (dST dET : String) (g : Bool)
        (pathSpec : PathItem) (acc : List (Option OperationRender) × List String)
        (entries : List (String × PathItemEntry)),
        match processPathKeysFrom sps sds gah ex dST dET g pathSpec acc entries with
        | Except.ok pr => pr.1.length = acc.1.length + entries.length
        | Except.error _ => True) := by
  constructor
  · intro sps sds gah ex dST dET g pathSpec operationKey
    cases hct : SUPPORTED_SPEC_METHODS.contains (jsToLower operationKey) with
    | false =>
      have hmem : ¬jsToLower operationKey ∈ SUPPORTED_SPEC_METHODS := by simpa using hct
      simp [processOperationKey, hmem]
    | true =>
      have hmem : jsToLower operationKey ∈ SUPPORTED_SPEC_METHODS := by simpa using hct
      cases hl : lookupOperationChain pathSpec (jsToLower operationKey) with
      | none => simp [processOperationKey, hmem, hl]
      | some operation =>
        cases hid : operation.operationId with
        | none => simp [processOperationKey, hmem, hl, hid]
        | some operationId =>
          cases hr : renderOperation (jsToLower operationKey) operationId operation
              sps sds (gah.map (fun kv => kv.2)) ex dST dET g with
          | error m => simp [processOperationKey, hmem, hl, hid, hr, Except.map]
          | ok r => simp [processOperationKey, hmem, hl, hid, hr, Except.map]
  · intro sps sds gah ex dST dET g pathSpec acc entries
    induction entries generalizing acc with
    | nil => simp [processPathKeysFrom]
    | cons entry rest ih =>
      simp only [processPathKeysFrom]
      cases hk : processOperationKey sps sds gah ex dST dET g pathSpec entry.1 with
      | error m => simp [hk]
      | ok pr =>
        obtain ⟨r, ds⟩ := pr
        simp only [hk]
        have h := ih (acc.1 ++ [r], acc.2 ++ ds)
        cases hres : processPathKeysFrom sps sds gah ex dST dET g pathSpec
            (acc.1 ++ [r], acc.2 ++ ds) rest with
        | error m => simp [hres]
        | ok pr2 =>
          rw [hres] at h
          simp only [hres]
          simp at h
          simp [h]
          omega

theorem generateApiCore_error (api : ApiDocument) (b : Bool) (dST dET : String)
    (g : Bool) (m : String) (hsw : api.hasSwagger = true)
    (h : generateApiCore api b dST dET g = Except.error m) : m = typeErrMsg := by
  unfold generateApiCore at h
  simp only [hsw, Bool.not_true, Bool.false_eq_true, if_false] at h
  cases hdef : api.definitions with
  | none => simp [hdef] at h
  | some defNames =>
    simp only [hdef] at h
    cases hbg : b || g with
    | false => simp [hbg] at h
    | true =>
      simp only [hbg, if_true] at h
      cases hpp : processPathsFrom api.parameters api.securityDefinitions
          (match api.security with
           | some security =>
             getAuthHeaders api.securityDefinitions (some (security.filterMap List.head?))
           | none => []) dST dET g ([], []) api.paths with
      | error m2 =>
        rw [hpp] at h
        cases h
        exact processPathsFrom_error _ _ _ _ _ _ _ _ _ hpp
      | ok pr =>
        rw [hpp] at h
        simp at h

/-- C9: a bundled document failing the contract-version check makes the
whole run abort with the single version failure before anything is
processed; a document passing the check never raises that failure (the
only modelled failure after the check is the shared-parameter TypeError,
whose message differs from the version message). -/
theorem c9_version_check :
    ∀ (api : ApiDocument) (b : Bool) (dST dET : String) (g : Bool),
      match api.hasSwagger, generateApiCore api b dST dET g with
      | false, res => res = Except.error "The specification is not of type swagger 2"
      | true, Except.error m =>
        (m == typeErrMsg) = true ∧
          (m == "The specification is not of type swagger 2") = false
      | true, Except.ok _ => True := by
  intro api b dST dET g
  cases hsw : api.hasSwagger with
  | false => simp [generateApiCore, hsw]
  | true =>
    cases hres : generateApiCore api b dST dET g with
    | ok res => trivial
    | error m =>
      have hm : m = typeErrMsg := generateApiCore_error api b dST dET g m hsw hres
      subst hm
      exact ⟨by decide, by decide⟩

/-- C10: an operation parameter resolved through a reference is keyed by the
uncapitalized last segment of the reference (with a "?" suffix when not
required), never by the parameter's own `name` field — for category
Definition the value is the model name and the required flag comes from the
parameter itself, for category Parameter the value comes from the shared
parameter map and the required flag from the shared declaration — and two
distinct parameters of one operation referencing the same definition with
the same required flag collapse into a single merged entry. -/
theorem c10_ref_param_keying
    (operationId : String) (sps : Option (List (String × ParameterObject)))
    (p1 p2 p3 : ParameterObject) (r1 r2 r3 n pn t : String)
    (defs : List (String × ParameterObject)) (sp : ParameterObject)
    (h1 : (jsTruthyS p1.name && jsTruthyS p1.type) = false)
    (h2 : refInParamOf p1 = some r1)
    (h3 : typeFromRef r1 = some (RefType.definition, n))
    (h4 : (jsTruthyS p2.name && jsTruthyS p2.type) = false)
    (h5 : refInParamOf p2 = some r2)
    (h6 : typeFromRef r2 = some (RefType.definition, n))
    (h7 : (p1.required == some true) = (p2.required == some true))
    (h8 : (jsTruthyS p3.name && jsTruthyS p3.type) = false)
    (h9 : refInParamOf p3 = some r3)
    (h10 : typeFromRef r3 = some (RefType.parameter, pn))
    (h11 : sps = some defs) (h12 : lookupJS defs pn = some sp)
    (h13 : sp.type = some t) :
    processParam operationId sps p1 =
      ParamStep.resolvedRef
        (uncapitalize n ++ (if p1.required == some true then "" else "?")) n (some n)
    ∧ processParam operationId sps p3 =
      ParamStep.resolvedRef
        (uncapitalize pn ++ (if sp.required == some true then "" else "?"))
        (specTypeToTs t) none
    ∧ collectParams operationId sps [p1, p2] =
      Except.ok ⟨[(uncapitalize n ++ (if p1.required == some true then "" else "?"), n)],
        [], [n]⟩ := by
  have hp1 : processParam operationId sps p1 =
      ParamStep.resolvedRef
        (uncapitalize n ++ (if p1.required == some true then "" else "?")) n (some n) := by
    unfold processParam
    simp [h1, h2, h3]
  have hp2 : processParam operationId sps p2 =
      ParamStep.resolvedRef
        (uncapitalize n ++ (if p1.required == some true then "" else "?")) n (some n) := by
    unfold processParam
    simp [h4, h5, h6]
    by_cases hreq : p1.required = some true
    · have hreq2 : p2.required = some true := by
        have hb : (p2.required == some true) = true := by
          rw [← h7]
          simpa [beq_iff_eq] using hreq
        simpa [beq_iff_eq] using hb
      simp [hreq, hreq2]
    · have hreq2 : ¬p2.required = some true := by
        intro hc
        apply hreq
        have hb : (p2.required == some true) = true := by simpa [beq_iff_eq] using hc
        rw [← h7] at hb
        simpa [beq_iff_eq] using hb
      simp [hreq, hreq2]
  have hp3 : processParam operationId sps p3 =
      ParamStep.resolvedRef
        (uncapitalize pn ++ (if sp.required == some true then "" else "?"))
        (specTypeToTs t) none := by
    unfold processParam
    simp [h8, h9, h10, h11, h12, h13]
  refine ⟨hp1, hp3, ?_⟩
  simp [collectParams, collectParamsFrom, hp1, hp2, insertJS, addToSet]

/-- Witness for C10: two parameters with different declared names but the
same definition reference produce one entry keyed by the uncapitalized
model name; a shared-parameter reference is keyed by the uncapitalized
shared parameter name with the optionality marker taken from the shared
declaration. -/
theorem c10_witness :
    processParam "greet"
      (some [("PaginationRequest",
        ⟨some "cursor", some "string", some false, some "query", none, none⟩)])
      ⟨some "first", none, some true, some "query",
        some "#/definitions/GreetingMessage", none⟩ =
      ParamStep.resolvedRef "greetingMessage" "GreetingMessage" (some "GreetingMessage")
    ∧ processParam "greet"
      (some [("PaginationRequest",
        ⟨some "cursor", some "string", some false, some "query", none, none⟩)])
      ⟨none, none, none, some "query", some "#/parameters/PaginationRequest", none⟩ =
      ParamStep.resolvedRef "paginationRequest?" "string" none
    ∧ collectParams "greet"
      (some [("PaginationRequest",
        ⟨some "cursor", some "string", some false, some "query", none, none⟩)])
      [⟨some "first", none, some true, some "query",
         some "#/definitions/GreetingMessage", none⟩,
       ⟨some "second", none, some true, none, none,
         some ⟨some "#/definitions/GreetingMessage"⟩⟩] =
      Except.ok ⟨[("greetingMessage", "GreetingMessage")], [], ["GreetingMessage"]⟩ := by
  have h := c10_ref_param_keying "greet"
    (some [("PaginationRequest",
      ⟨some "cursor", some "string", some false, some "query", none, none⟩)])
    ⟨some "first", none, some true, some "query",
      some "#/definitions/GreetingMessage", none⟩
    ⟨some "second", none, some true, none, none,
      some ⟨some "#/definitions/GreetingMessage"⟩⟩
    ⟨none, none, none, some "query", some "#/parameters/PaginationRequest", none⟩
    "#/definitions/GreetingMessage" "#/definitions/GreetingMessage"
    "#/parameters/PaginationRequest" "GreetingMessage" "PaginationRequest" "string"
    [("PaginationRequest",
      ⟨some "cursor", some "string", some false, some "query", none, none⟩)]
    ⟨some "cursor", some "string", some false, some "query", none, none⟩
    (by decide) (by decide) (by decide) (by decide) (by decide) (by decide)
    (by decide) (by decide) (by decide) (by decide) rfl (by decide) (by decide)
  refine ⟨?_, ?_, ?_⟩
  · simpa using h.1
  · simpa using h.2.1
  · simpa using h.2.2

end GenApiModels
